import Mathlib

/-!
Shallow embedding of the `airac` Go package (src/airac.go).

The package represents AIRAC cycles as a `uint16` counting 28-day periods
since the epoch 1901-01-10T00:00:00 UTC.  Go's `time.Time` is modelled as
an `Int` counting nanoseconds since 0001-01-01T00:00:00 UTC in the
proleptic Gregorian calendar (this is exactly the absolute time scale Go's
calendar functions use); `time.Duration` is an `Int64`, so arithmetic on
durations wraps modulo 2^64 into the signed range, which we model with
`wrap64`.  All calendar computations (`Year`, `YearDay`, date formatting)
follow Go's `absDate` algorithm line by line.
-/

deriving instance DecidableEq for Except

namespace Airac

/-- Nanoseconds per day (Go: 24 * time.Hour in nanoseconds). -/
def nsPerDay : Int := 86400000000000

/-- Go constant `cycleDuration = 24192e11` nanoseconds, i.e. 4 weeks. -/
def cycleDuration : Int := 2419200000000000

/-- Largest value of Go's `int64` / `time.Duration`. -/
def int64Max : Int := 9223372036854775807

/-- Smallest value of Go's `int64` / `time.Duration`. -/
def int64Min : Int := -9223372036854775808

/-- Wrap an integer into the signed 64-bit range, as Go's int64
multiplication does (two's complement, modulo 2^64). -/
def wrap64 (x : Int) : Int :=
  (x + 9223372036854775808) % 18446744073709551616 - 9223372036854775808

/-- Go `time.Time.Sub`: the difference of two instants as a `Duration`,
saturating at the int64 bounds. -/
def durSub (t u : Int) : Int :=
  if t - u > int64Max then int64Max
  else if t - u < int64Min then int64Min
  else t - u

/-- Conversion to Go `uint16` (used by `AIRAC(x)` conversions): the low
16 bits of the integer. -/
def uint16OfInt (x : Int) : Nat := (x % 65536).toNat

/-- Go `isLeap` (src of time package): proleptic Gregorian leap year. -/
def isLeap (y : Nat) : Bool := y % 4 = 0 && (y % 100 != 0 || y % 400 = 0)

/-- Go's `daysBefore` table: days in a non-leap year before month m
(1-based month; index 0 is 0, index 12 is 365). -/
def daysBefore : Nat → Nat
  | 0 => 0
  | 1 => 31
  | 2 => 59
  | 3 => 90
  | 4 => 120
  | 5 => 151
  | 6 => 181
  | 7 => 212
  | 8 => 243
  | 9 => 273
  | 10 => 304
  | 11 => 334
  | _ => 365

/-- Days from 0001-01-01 to the start of year `y` (y ≥ 1), proleptic
Gregorian, as Go's `daysSinceEpoch` computes (rebased to year 1). -/
def daysFromYear1 (y : Nat) : Nat :=
  365 * (y - 1) + (y - 1) / 4 - (y - 1) / 100 + (y - 1) / 400

/-- Day number (days since 0001-01-01) of the civil date y-m-d, for a
valid proleptic-Gregorian date with y ≥ 1.  This is what Go's
`time.Date(y, m, d, 0, 0, 0, 0, time.UTC)` computes for in-range
arguments. -/
def daysFromCivil (y m d : Nat) : Nat :=
  daysFromYear1 y + daysBefore (m - 1) +
    (if isLeap y ∧ 3 ≤ m then 1 else 0) + (d - 1)

/-- First half of Go's `absDate` algorithm: day number (days since
0001-01-01) to (year, 0-based day-of-year).  Transcribed from the Go
standard library `time` package (the 400/100/4/1-year cuts). -/
def absYearYday (days : Nat) : Nat × Nat :=
  let n400 := days / 146097
  let y0 := 400 * n400
  let r0 := days - 146097 * n400
  let n100i := r0 / 36524
  let n100 := n100i - n100i / 4
  let y1 := y0 + 100 * n100
  let r1 := r0 - 36524 * n100
  let n4 := r1 / 1461
  let y2 := y1 + 4 * n4
  let r2 := r1 - 1461 * n4
  let n1i := r2 / 365
  let n1 := n1i - n1i / 4
  (y2 + n1 + 1, r2 - 365 * n1)

/-- Second half of Go's `absDate` (the `full` branch): day number to
(year, month, day-of-month, 0-based day-of-year). -/
def absDate (days : Nat) : Nat × Nat × Nat × Nat :=
  let year := (absYearYday days).1
  let yday := (absYearYday days).2
  if isLeap year ∧ yday = 59 then
    (year, 2, 29, yday)
  else
    let day := if isLeap year ∧ 59 < yday then yday - 1 else yday
    let m0 := day / 31
    let m1 := if daysBefore (m0 + 1) ≤ day then m0 + 1 else m0
    let begin_ := if daysBefore (m0 + 1) ≤ day then daysBefore (m0 + 1)
                  else daysBefore m0
    (year, m1 + 1, day - begin_ + 1, yday)

/-- The civil day number containing instant `t` (`t` in nanoseconds since
0001-01-01, `t ≥ 0` for every instant this development touches; `/` on
`Int` is Euclidean division, which on nonnegative values is Go's
division of absolute seconds). -/
def dayOf (t : Int) : Nat := (t / nsPerDay).toNat

/-- Go global `_epoch = time.Date(1901, time.January, 10, 0, 0, 0, 0, time.UTC)`
as nanoseconds since 0001-01-01. -/
def _epoch : Int := (daysFromCivil 1901 1 10 : Int) * nsPerDay

/-- Go `time.Date(y, m, d, 0, 0, 0, 0, time.UTC)` for a valid date with
y ≥ 1, as an instant. -/
def goDate (y : Int) (m d : Nat) : Int := (daysFromCivil y.toNat m d : Int) * nsPerDay

/-- Go method `AIRAC.Effective`: `_epoch.Add(time.Duration(a) * cycleDuration)`.
The multiplication is int64 arithmetic, hence the `wrap64`. -/
def Effective (a : Nat) : Int := _epoch + wrap64 ((a : Int) * cycleDuration)

/-- Go method `AIRAC.Year`: the calendar year of the effective date. -/
def Year (a : Nat) : Nat := (absYearYday (dayOf (Effective a))).1

/-- Go method `time.Time.YearDay` applied to the effective date: 1-based
day of year. -/
def YearDay (a : Nat) : Nat := (absYearYday (dayOf (Effective a))).2 + 1

/-- Go method `AIRAC.Ordinal`: `(a.Effective().YearDay()-1)/28 + 1`. -/
def Ordinal (a : Nat) : Nat := (YearDay a - 1) / 28 + 1

/-- Go function `FromDate`: `AIRAC(date.Sub(_epoch) / cycleDuration)`.
`Sub` saturates at int64 bounds, `/` is Go (truncating) int64 division,
and the `AIRAC(...)` conversion keeps the low 16 bits. -/
def FromDate (t : Int) : Nat := uint16OfInt ((durSub t _epoch).tdiv cycleDuration)

/-- Go `unicode.IsSpace`: the characters with the Unicode White_Space
property. -/
def goIsSpace (c : Char) : Bool :=
  c = ' ' || c = '\t' || c = '\n' || c.toNat = 11 || c.toNat = 12 ||
  c = '\r' || c.toNat = 133 || c.toNat = 160 || c.toNat = 5760 ||
  (8192 ≤ c.toNat && c.toNat ≤ 8202) || c.toNat = 8232 || c.toNat = 8233 ||
  c.toNat = 8239 || c.toNat = 8287 || c.toNat = 12288

/-- Go `strings.TrimSpace`: drop leading and trailing white space. -/
def trimSpace (l : List Char) : List Char :=
  ((l.dropWhile goIsSpace).reverse.dropWhile goIsSpace).reverse

/-- UTF-8 size in bytes of one character.  Go's `len` on strings counts
bytes. -/
def charUtf8Size (c : Char) : Nat :=
  if c.toNat < 128 then 1 else if c.toNat < 2048 then 2
  else if c.toNat < 65536 then 3 else 4

/-- Byte length of a string given as a character list (Go `len`). -/
def utf8Len (l : List Char) : Nat := (l.map charUtf8Size).sum

/-- Is `c` an ASCII decimal digit (the only digits `strconv.Atoi`
accepts). -/
def isDigitChar (c : Char) : Bool := 48 ≤ c.toNat && c.toNat ≤ 57

/-- One step of the digit fold of `strconv.Atoi`: multiply the
accumulator by ten and add the digit, failing on a non-digit. -/
def digitStep (acc : Option Nat) (c : Char) : Option Nat :=
  acc.bind (fun n => if isDigitChar c then some (n * 10 + (c.toNat - 48)) else none)

/-- Numeric value of the digit list, or `none` when the list is empty or
holds a non-digit. -/
def digitsVal (l : List Char) : Option Nat :=
  if l = [] then none else l.foldl digitStep (some 0)

/-- Go `strconv.Atoi` restricted to short strings: an optional sign
followed by a nonempty run of ASCII digits (no int64 overflow is possible
at the lengths this package feeds it). -/
def goAtoi (l : List Char) : Option Int :=
  match l with
  | [] => none
  | c :: rest =>
    if c = '-' then (digitsVal rest).map (fun n => -(n : Int))
    else if c = '+' then (digitsVal rest).map (fun n => (n : Int))
    else (digitsVal (c :: rest)).map (fun n => (n : Int))

/-- The ASCII digit character for digit `k`. -/
def digitChar (k : Nat) : Char := Char.ofNat (48 + k)

/-- Go helper `parseIdentifier`: trim, check byte length 4, reject a
leading sign, parse the digits, and resolve the two-digit year. -/
def parseIdentifier (yyoo : String) : Except String (Int × Int) :=
  let t := trimSpace yyoo.data
  if utf8Len t ≠ 4 then .error "illegal AIRAC id"
  else if t.headD ' ' = '+' ∨ t.headD ' ' = '-' then .error "illegal AIRAC id"
  else
    match goAtoi t with
    | none => .error "illegal AIRAC id"
    | some v =>
      let year := v.tdiv 100 + 1900
      let ordinal := v.tmod 100
      if year ≤ 1963 then .ok (year + 100, ordinal) else .ok (year, ordinal)

/-- Go function `FromString`: parse the identifier, take the last cycle
of the previous year, add the ordinal (uint16 arithmetic), and check the
year is consistent. -/
def FromString (yyoo : String) : Except String Nat :=
  match parseIdentifier yyoo with
  | .error e => .error e
  | .ok (year, ordinal) =>
    let lastAiracOfPreviousYear := FromDate (goDate (year - 1) 12 31)
    let airac := (lastAiracOfPreviousYear + uint16OfInt ordinal) % 65536
    if (Year airac : Int) ≠ year then .error "illegal AIRAC id"
    else .ok airac

/-- Zero-pad a natural number to (at least) two digits, as Go `%02d`
does for nonnegative arguments. -/
def pad2 (n : Nat) : String := if n < 10 then "0" ++ toString n else toString n

/-- Zero-pad a natural number to (at least) four digits, as Go's date
layout `2006` prints the year. -/
def pad4 (n : Nat) : String :=
  if n < 10 then "000" ++ toString n
  else if n < 100 then "00" ++ toString n
  else if n < 1000 then "0" ++ toString n
  else toString n

/-- Format the civil date of day number `d` as `YYYY-MM-DD`. -/
def fmtDay (d : Nat) : String :=
  let c := absDate d
  pad4 c.1 ++ "-" ++ pad2 c.2.1 ++ "-" ++ pad2 c.2.2.1

/-- Go `t.Format("2006-01-02")`: the civil date of the instant,
`YYYY-MM-DD`. -/
def fmtDate (t : Int) : String := fmtDay (dayOf t)

/-- Go method `AIRAC.String`: `fmt.Sprintf("%02d%02d", a.Year()%100, a.Ordinal())`. -/
def ShortString (a : Nat) : String := pad2 (Year a % 100) ++ pad2 (Ordinal a)

/-- Go method `AIRAC.LongString`: `"%02d%02d (effective: %s; expires: %s)"`
with the effective date and the instant one nanosecond before the next
cycle (`n := a + 1` in uint16 arithmetic). -/
def LongString (a : Nat) : String :=
  let n := (a + 1) % 65536
  pad2 (Year a % 100) ++ pad2 (Ordinal a) ++ " (effective: " ++
    fmtDate (Effective a) ++ "; expires: " ++ fmtDate (Effective n - 1) ++ ")"

/-! ### Arithmetic helper lemmas -/

/-- An int64 product that stays inside the signed range is not changed by
the wrap. -/
theorem wrap64_id {x : Int} (h0 : 0 ≤ x) (h1 : x < 9223372036854775808) :
    wrap64 x = x := by
  unfold wrap64
  omega

/-- The epoch instant as a numeral (693969 days after 0001-01-01). -/
theorem epoch_val : _epoch = 59958921600000000000 := by decide

/-- Up to cycle 3812 the duration multiplication does not overflow, so the
effective instant is exactly `epoch + cycle * 28 days`. -/
theorem effective_eq {c : Nat} (hc : c ≤ 3812) :
    Effective c = _epoch + (c : Int) * cycleDuration := by
  have h : (c : Int) ≤ 3812 := by exact_mod_cast hc
  have h0 : (0 : Int) ≤ (c : Int) := Int.ofNat_nonneg c
  unfold Effective
  rw [wrap64_id (by simp only [cycleDuration]; positivity)
    (by simp only [cycleDuration]; nlinarith)]

/-! ### C1 -/

/-- C1: for every cycle whose effective date lies in the representable
range (cycles 0–3812, whose effective dates run to 2193, covering the
documented limit of year 2192), converting the cycle to its effective
date and back with `FromDate` is the identity. -/
theorem c1_fromDate_effective_roundtrip :
    ∀ c : Nat, c ≤ 3812 → FromDate (Effective c) = c := by
  intro c hc
  have h : (c : Int) ≤ 3812 := by exact_mod_cast hc
  have h0 : (0 : Int) ≤ (c : Int) := Int.ofNat_nonneg c
  rw [effective_eq hc]
  unfold FromDate durSub uint16OfInt
  have h1 : _epoch + (c : Int) * cycleDuration - _epoch = (c : Int) * cycleDuration := by
    ring
  rw [h1]
  rw [if_neg (by simp only [cycleDuration, int64Max]; nlinarith)]
  rw [if_neg (by simp only [cycleDuration, int64Min]; nlinarith)]
  rw [Int.mul_tdiv_cancel _ (by simp [cycleDuration])]
  omega

/-- C1 witness: the round trip at cycle 2000. -/
theorem c1_fromDate_effective_roundtrip_witness :
    2000 ≤ 3812 ∧ FromDate (Effective 2000) = 2000 :=
  ⟨by decide, c1_fromDate_effective_roundtrip 2000 (by decide)⟩

/-! ### C4 -/

/-- C4 counterexample: at cycle 3812 the next cycle's effective date is
computed with an overflowing int64 duration and lands centuries earlier,
so it is neither later nor 28 days after. -/
theorem c4_counterexample :
    Effective 3813 < Effective 3812 ∧
      Effective 3813 - Effective 3812 ≠ 28 * nsPerDay := by
  constructor
  · decide
  · decide

/-- C4 amended: for every cycle `c ≤ 3811` (so that both `c` and `c+1`
are free of int64 duration overflow), the effective date of `c` is
strictly earlier than that of `c+1` and the difference is exactly 28
days. -/
theorem c4_effective_monotone_28days :
    ∀ c : Nat, c ≤ 3811 →
      Effective c < Effective (c + 1) ∧
        Effective (c + 1) - Effective c = 28 * nsPerDay := by
  intro c hc
  rw [effective_eq (by omega), effective_eq (by omega)]
  have h : (c : Int) ≤ 3811 := by exact_mod_cast hc
  push_cast
  simp only [cycleDuration, nsPerDay]
  constructor
  · nlinarith
  · ring

/-- C4 witness: the amended statement at cycle 10. -/
theorem c4_effective_monotone_28days_witness :
    10 ≤ 3811 ∧ (Effective 10 < Effective 11 ∧
      Effective 11 - Effective 10 = 28 * nsPerDay) := by
  refine ⟨by decide, ?_⟩
  simpa using c4_effective_monotone_28days 10 (by decide)

/-! ### C5 -/

/-- C5 counterexample: at cycle 3813 the int64 duration product wraps, so
the effective instant is not `epoch + 3813 * 28 days` and is not a UTC
midnight. -/
theorem c5_counterexample :
    Effective 3813 ≠ _epoch + (3813 : Int) * cycleDuration ∧
      Effective 3813 % nsPerDay ≠ 0 := by
  constructor
  · decide
  · decide

/-- C5 amended: for every cycle `c ≤ 3812` (no int64 overflow in the
duration product), the effective instant is exactly
`epoch + c * 28 days` and falls on a UTC midnight. -/
theorem c5_effective_epoch_offset_midnight :
    ∀ c : Nat, c ≤ 3812 →
      Effective c = _epoch + (c : Int) * cycleDuration ∧
        Effective c % nsPerDay = 0 := by
  intro c hc
  refine ⟨effective_eq hc, ?_⟩
  rw [effective_eq hc]
  have h2 : _epoch + (c : Int) * cycleDuration =
      ((693969 : Int) + (c : Int) * 28) * nsPerDay := by
    rw [epoch_val]
    simp only [cycleDuration, nsPerDay]
    ring
  rw [h2, Int.mul_emod_left]

/-! ### C2 -/

/-- The 0-based day of year produced by Go's `absDate` cuts never exceeds
365. -/
theorem absYearYday_yday_le (d : Nat) : (absYearYday d).2 ≤ 365 := by
  simp only [absYearYday]
  omega

/-- C2 counterexample: cycle 1565 is effective 2020-12-31 (day 365 of the
leap year 2020, 0-based), so its ordinal is 14, outside the claimed
range [1, 13]. -/
theorem c2_counterexample :
    Ordinal 1565 = 14 ∧ Year 1565 = 2020 ∧ ¬ Ordinal 1565 ≤ 13 := by
  refine ⟨by decide, by decide, by decide⟩

/-- C2 amended: for every cycle, the ordinal is
`floor(day_of_year(Effective(cycle)) / 28) + 1` with 0-based day-of-year
(`YearDay` is 1-based), and it always lies in [1, 14]: years containing
14 cycle starts exist, so 14 is attained. -/
theorem c2_ordinal_formula_and_range :
    ∀ a : Nat, a < 65536 →
      Ordinal a = (YearDay a - 1) / 28 + 1 ∧ 1 ≤ Ordinal a ∧ Ordinal a ≤ 14 := by
  intro a ha
  refine ⟨rfl, Nat.le_add_left 1 _, ?_⟩
  unfold Ordinal YearDay
  have h := absYearYday_yday_le (dayOf (Effective a))
  omega

/-- C2 witness: the amended statement at cycle 7. -/
theorem c2_ordinal_formula_and_range_witness :
    7 < 65536 ∧ (Ordinal 7 = (YearDay 7 - 1) / 28 + 1 ∧
      1 ≤ Ordinal 7 ∧ Ordinal 7 ≤ 14) :=
  ⟨by decide, c2_ordinal_formula_and_range 7 (by decide)⟩

/-- C5 witness: the amended statement at cycle 1292. -/
theorem c5_effective_epoch_offset_midnight_witness :
    1292 ≤ 3812 ∧ (Effective 1292 = _epoch + (1292 : Int) * cycleDuration ∧
      Effective 1292 % nsPerDay = 0) :=
  ⟨by decide, c5_effective_epoch_offset_midnight 1292 (by decide)⟩

/-! ### String helper lemmas -/

theorem digitChar_not_space : ∀ k < 10, goIsSpace (digitChar k) = false := by decide

theorem digitChar_size : ∀ k < 10, charUtf8Size (digitChar k) = 1 := by decide

theorem digitChar_digit : ∀ k < 10, isDigitChar (digitChar k) = true := by decide

theorem digitChar_val : ∀ k < 10, (digitChar k).toNat - 48 = k := by decide

theorem digitChar_ne_plus : ∀ k < 10, digitChar k ≠ '+' := by decide

theorem digitChar_ne_minus : ∀ k < 10, digitChar k ≠ '-' := by decide

theorem pad2_data : ∀ n < 100,
    (pad2 n).data = [digitChar (n / 10), digitChar (n % 10)] := by decide

theorem intOfNat_tdiv100 (m : Nat) : (↑m : Int).tdiv 100 = ↑(m / 100) := rfl

theorem intOfNat_tmod100 (m : Nat) : (↑m : Int).tmod 100 = ↑(m % 100) := rfl

/-- Evaluation of `parseIdentifier` on a four-digit string. -/
theorem parseIdentifier_digits {a b c d : Nat} (ha : a < 10) (hb : b < 10)
    (hc : c < 10) (hd : d < 10) {s : String}
    (hs : s.data = [digitChar a, digitChar b, digitChar c, digitChar d]) :
    parseIdentifier s =
      if a * 10 + b + 1900 ≤ 1963 then
        .ok ((a : Int) * 10 + b + 2000, (c : Int) * 10 + d)
      else
        .ok ((a : Int) * 10 + b + 1900, (c : Int) * 10 + d) := by
  have htrim : trimSpace [digitChar a, digitChar b, digitChar c, digitChar d] =
      [digitChar a, digitChar b, digitChar c, digitChar d] := by
    simp [trimSpace, List.dropWhile_cons, digitChar_not_space a ha,
      digitChar_not_space d hd]
  have hlen : utf8Len [digitChar a, digitChar b, digitChar c, digitChar d] = 4 := by
    simp [utf8Len, digitChar_size a ha, digitChar_size b hb, digitChar_size c hc,
      digitChar_size d hd]
  have hatoi : goAtoi [digitChar a, digitChar b, digitChar c, digitChar d] =
      some ((((a * 10 + b) * 10 + c) * 10 + d : Nat) : Int) := by
    simp [goAtoi, digitChar_ne_minus a ha, digitChar_ne_plus a ha, digitsVal,
      digitStep, List.foldl, digitChar_digit a ha, digitChar_digit b hb,
      digitChar_digit c hc, digitChar_digit d hd, digitChar_val a ha,
      digitChar_val b hb, digitChar_val c hc, digitChar_val d hd]
  simp only [parseIdentifier, hs, htrim, hlen, ne_eq, not_true_eq_false,
    reduceIte, List.headD]
  rw [if_neg (by simp [digitChar_ne_plus a ha, digitChar_ne_minus a ha])]
  rw [hatoi]
  simp only [intOfNat_tdiv100, intOfNat_tmod100]
  have h100 : (((a * 10 + b) * 10 + c) * 10 + d) / 100 = a * 10 + b := by omega
  have hm100 : (((a * 10 + b) * 10 + c) * 10 + d) % 100 = c * 10 + d := by omega
  rw [h100, hm100]
  split_ifs with h1 h2 h3 <;>
    simp only [Except.ok.injEq, Prod.mk.injEq] <;> push_cast <;> omega

/-- Evaluation of `parseIdentifier` on a zero-padded year/ordinal pair:
the year-resolution rule. -/
theorem parse_pad2 {yy oo : Nat} (hy : yy < 100) (ho : oo < 100) :
    parseIdentifier (pad2 yy ++ pad2 oo) =
      if yy + 1900 ≤ 1963 then .ok ((yy : Int) + 2000, (oo : Int))
      else .ok ((yy : Int) + 1900, (oo : Int)) := by
  have hdata : (pad2 yy ++ pad2 oo).data =
      [digitChar (yy / 10), digitChar (yy % 10),
       digitChar (oo / 10), digitChar (oo % 10)] := by
    rw [String.data_append, pad2_data yy hy, pad2_data oo ho]
    rfl
  rw [parseIdentifier_digits (by omega) (by omega) (by omega) (by omega) hdata]
  have e1 : yy / 10 * 10 + yy % 10 = yy := by omega
  have e1i : ((yy / 10 : Nat) : Int) * 10 + ((yy % 10 : Nat) : Int) = (yy : Int) := by
    push_cast
    omega
  have e2i : ((oo / 10 : Nat) : Int) * 10 + ((oo % 10 : Nat) : Int) = (oo : Int) := by
    push_cast
    omega
  rw [e1, e1i, e2i]

/-! ### C7 -/

/-- C7: the parser resolves the two-digit year suffix `yy` to `yy + 1900`,
adding 100 when that is at most 1963; consequently "6401" is year 1964
ordinal 1 (cycle 822), "0001" is year 2000 ordinal 1 (cycle 1292), and
"9913" is cycle 1291, which lies in year 1999. -/
theorem c7_year_resolution :
    (∀ yy oo : Nat, yy < 100 → oo < 100 →
      parseIdentifier (pad2 yy ++ pad2 oo) =
        if yy + 1900 ≤ 1963 then .ok ((yy : Int) + 2000, (oo : Int))
        else .ok ((yy : Int) + 1900, (oo : Int))) ∧
    FromString "6401" = .ok 822 ∧ Year 822 = 1964 ∧ Ordinal 822 = 1 ∧
    FromString "0001" = .ok 1292 ∧ Year 1292 = 2000 ∧ Ordinal 1292 = 1 ∧
    FromString "9913" = .ok 1291 ∧ Year 1291 = 1999 :=
  ⟨fun _ _ hy ho => parse_pad2 hy ho, by decide, by decide, by decide, by decide,
    by decide, by decide, by decide, by decide⟩

/-- C7 witness: the year-resolution rule applied to the identifier parts
64 and 01 gives year 1964 and ordinal 1. -/
theorem c7_year_resolution_witness :
    parseIdentifier (pad2 64 ++ pad2 1) = .ok (1964, 1) := by
  have h := c7_year_resolution.1 64 1 (by decide) (by decide)
  norm_num at h
  exact h

/-! ### C9 -/

/-- C9: the cycle obtained from `FromDate` at 2021-01-28 is cycle 1566,
whose short string is "2101", year 2021, ordinal 1. -/
theorem c9_example_2021_01_28 :
    FromDate (goDate 2021 1 28) = 1566 ∧ ShortString 1566 = "2101" ∧
      Year 1566 = 2021 ∧ Ordinal 1566 = 1 :=
  ⟨by decide, by decide, by decide, by decide⟩

/-! ### C10 -/

/-- C10: every identifier with ordinal part "00" is rejected: the cycle
computed as (last cycle of the previous year) + 0 still lies in the
previous year, so the year-consistency check fails. -/
theorem c10_ordinal_zero_rejected :
    ∀ yy : Nat, yy < 100 →
      FromString (pad2 yy ++ "00") = .error "illegal AIRAC id" := by decide

/-- C10 witness: identifier "2100" is rejected. -/
theorem c10_ordinal_zero_rejected_witness :
    FromString (pad2 21 ++ "00") = .error "illegal AIRAC id" :=
  c10_ordinal_zero_rejected 21 (by decide)

/-! ### C8 -/

/-- In the overflow-free range the effective date falls on day number
`693969 + 28 c` (days since 0001-01-01). -/
theorem dayOf_effective {c : Nat} (hc : c ≤ 3812) :
    dayOf (Effective c) = 693969 + 28 * c := by
  rw [effective_eq hc, epoch_val]
  unfold dayOf
  have h2 : (59958921600000000000 : Int) + (c : Int) * cycleDuration =
      ((693969 + 28 * c : Nat) : Int) * nsPerDay := by
    simp only [cycleDuration, nsPerDay]
    push_cast
    ring
  rw [h2, Int.mul_ediv_cancel _ (by norm_num [nsPerDay])]
  omega

/-- One nanosecond before an overflow-free effective instant lies on the
previous day. -/
theorem dayOf_effective_sub_one {c : Nat} (hc : c ≤ 3812) :
    dayOf (Effective c - 1) = 693969 + 28 * c - 1 := by
  rw [effective_eq hc, epoch_val]
  unfold dayOf
  have h2 : (59958921600000000000 : Int) + (c : Int) * cycleDuration - 1 =
      ((693968 + 28 * c : Nat) : Int) * nsPerDay + (nsPerDay - 1) := by
    simp only [cycleDuration, nsPerDay]
    push_cast
    ring
  rw [h2]
  have h3 : ((nsPerDay - 1) + nsPerDay * ((693968 + 28 * c : Nat) : Int)) / nsPerDay
      = ((693968 + 28 * c : Nat) : Int) := by
    rw [Int.add_mul_ediv_left _ _ (show nsPerDay ≠ 0 by norm_num [nsPerDay])]
    rw [Int.ediv_eq_zero_of_lt (by norm_num [nsPerDay]) (by norm_num [nsPerDay])]
    ring
  rw [show ((693968 + 28 * c : Nat) : Int) * nsPerDay + (nsPerDay - 1) =
    (nsPerDay - 1) + nsPerDay * ((693968 + 28 * c : Nat) : Int) by ring, h3]
  push_cast
  omega

/-- C8 counterexample: the long string of cycle 3812 shows expiry date
1608-10-12, which is the same calendar day (not one day before) the
effective date shown by the long string of cycle 3813, because the
wrapped effective instant of 3813 is not a midnight. -/
theorem c8_counterexample :
    LongString 3812 = "9304 (effective: 2193-04-04; expires: 1608-10-12)" ∧
      LongString 3813 = "0811 (effective: 1608-10-12; expires: 1608-11-09)" ∧
      fmtDate (Effective 3813 - 1) = fmtDate (Effective 3813) :=
  ⟨by decide, by decide, by decide⟩

/-- C8 amended: for consecutive cycles `c`, `c+1` in the overflow-free
range (`c + 1 ≤ 3812`), the long string of `c` prints as expiry the
calendar day numbered one less than the day whose date the long string
of `c+1` prints as effective, i.e. exactly one day before. -/
theorem c8_expiry_one_day_before_next_effective :
    ∀ c : Nat, c + 1 ≤ 3812 →
      (∃ r : String, LongString c =
        pad2 (Year c % 100) ++ pad2 (Ordinal c) ++ " (effective: " ++
          fmtDay (dayOf (Effective c)) ++ "; expires: " ++
          fmtDay (dayOf (Effective (c + 1)) - 1) ++ r) ∧
      (∃ r : String, LongString (c + 1) =
        pad2 (Year (c + 1) % 100) ++ pad2 (Ordinal (c + 1)) ++ " (effective: " ++
          fmtDay (dayOf (Effective (c + 1))) ++ r) := by
  intro c hc
  constructor
  · refine ⟨")", ?_⟩
    simp only [LongString]
    rw [Nat.mod_eq_of_lt (show c + 1 < 65536 by omega)]
    simp only [fmtDate]
    rw [dayOf_effective_sub_one (show c + 1 ≤ 3812 by omega),
      dayOf_effective (show c + 1 ≤ 3812 by omega)]
  · refine ⟨"; expires: " ++ fmtDate (Effective ((c + 1 + 1) % 65536) - 1) ++ ")", ?_⟩
    simp only [LongString, fmtDate]
    simp [String.append_assoc]

/-- C8 witness: the amended statement at cycle 5. -/
theorem c8_expiry_one_day_before_next_effective_witness :
    5 + 1 ≤ 3812 ∧
      ((∃ r : String, LongString 5 =
        pad2 (Year 5 % 100) ++ pad2 (Ordinal 5) ++ " (effective: " ++
          fmtDay (dayOf (Effective 5)) ++ "; expires: " ++
          fmtDay (dayOf (Effective (5 + 1)) - 1) ++ r) ∧
      (∃ r : String, LongString (5 + 1) =
        pad2 (Year (5 + 1) % 100) ++ pad2 (Ordinal (5 + 1)) ++ " (effective: " ++
          fmtDay (dayOf (Effective (5 + 1))) ++ r)) :=
  ⟨by decide, c8_expiry_one_day_before_next_effective 5 (by decide)⟩

/-! ### C6 -/

theorem foldl_digitStep_none (l : List Char) : l.foldl digitStep none = none := by
  induction l with
  | nil => rfl
  | cons c l ih => simpa [digitStep] using ih

theorem foldl_digitStep_isSome (l : List Char) : ∀ n : Nat,
    (l.foldl digitStep (some n)).isSome = l.all isDigitChar := by
  induction l with
  | nil => intro n; rfl
  | cons c l ih =>
    intro n
    by_cases h : isDigitChar c
    · simp [digitStep, h, ih]
    · simp [digitStep, h, foldl_digitStep_none]

/-- `digitsVal` succeeds exactly on nonempty all-digit lists. -/
theorem digitsVal_isSome (l : List Char) :
    (digitsVal l).isSome = (decide (l ≠ []) && l.all isDigitChar) := by
  cases l with
  | nil => rfl
  | cons c l =>
    have h := foldl_digitStep_isSome (c :: l) 0
    simpa [digitsVal] using h

/-- The byte length of the empty character list is zero, so a length-4
string is nonempty. -/
theorem utf8Len_ne_nil {l : List Char} (h : utf8Len l = 4) : l ≠ [] := by
  intro he
  rw [he] at h
  simp [utf8Len] at h

/-- If `parseIdentifier` succeeds, the trimmed input has byte length 4,
no leading sign, and only digits. -/
theorem parse_ok_shape {s : String} {y o : Int}
    (h : parseIdentifier s = .ok (y, o)) :
    utf8Len (trimSpace s.data) = 4 ∧ (trimSpace s.data).headD ' ' ≠ '+' ∧
      (trimSpace s.data).headD ' ' ≠ '-' ∧
      (trimSpace s.data).all isDigitChar = true := by
  by_cases h4 : utf8Len (trimSpace s.data) = 4
  · by_cases hp : (trimSpace s.data).headD ' ' = '+' ∨ (trimSpace s.data).headD ' ' = '-'
    · exfalso
      simp only [parseIdentifier, h4] at h
      rw [if_neg (by simp), if_pos hp] at h
      exact Except.noConfusion h
    · push_neg at hp
      refine ⟨h4, hp.1, hp.2, ?_⟩
      simp only [parseIdentifier, h4] at h
      rw [if_neg (by simp), if_neg (by push_neg; exact hp)] at h
      obtain ⟨c, rest, he⟩ : ∃ c rest, trimSpace s.data = c :: rest := by
        cases hl : trimSpace s.data with
        | nil => exact absurd (hl ▸ h4) (by simp [utf8Len])
        | cons c rest => exact ⟨c, rest, rfl⟩
      rcases ha : goAtoi (trimSpace s.data) with _ | v
      · rw [ha] at h
        exact Except.noConfusion h
      · rw [he] at ha hp
        rw [goAtoi, if_neg (by simpa using hp.2), if_neg (by simpa using hp.1)] at ha
        have hsome : (digitsVal (c :: rest)).isSome = true := by
          rcases hd : digitsVal (c :: rest) with _ | n
          · rw [hd] at ha
            exact Option.noConfusion ha
          · rfl
        rw [digitsVal_isSome] at hsome
        rw [he]
        exact (Bool.and_eq_true_iff.mp hsome).2
  · exfalso
    simp only [parseIdentifier] at h
    rw [if_pos (by simpa using h4)] at h
    exact Except.noConfusion h

/-- If `parseIdentifier` fails, the trimmed input has wrong byte length,
a leading sign, or a non-digit. -/
theorem parse_error_shape {s e : String}
    (h : parseIdentifier s = .error e) :
    utf8Len (trimSpace s.data) ≠ 4 ∨ (trimSpace s.data).headD ' ' = '+' ∨
      (trimSpace s.data).headD ' ' = '-' ∨
      ¬ (trimSpace s.data).all isDigitChar = true := by
  by_cases h4 : utf8Len (trimSpace s.data) = 4
  · by_cases hp : (trimSpace s.data).headD ' ' = '+' ∨ (trimSpace s.data).headD ' ' = '-'
    · exact Or.inr (Or.imp id Or.inl hp)
    · push_neg at hp
      refine Or.inr (Or.inr (Or.inr ?_))
      simp only [parseIdentifier, h4] at h
      rw [if_neg (by simp), if_neg (by push_neg; exact hp)] at h
      obtain ⟨c, rest, he⟩ : ∃ c rest, trimSpace s.data = c :: rest := by
        cases hl : trimSpace s.data with
        | nil => exact absurd (hl ▸ h4) (by simp [utf8Len])
        | cons c rest => exact ⟨c, rest, rfl⟩
      rcases ha : goAtoi (trimSpace s.data) with _ | v
      · rw [he] at ha hp
        rw [goAtoi, if_neg (by simpa using hp.2), if_neg (by simpa using hp.1)] at ha
        have hnone : digitsVal (c :: rest) = none := by
          rcases hd : digitsVal (c :: rest) with _ | n
          · rfl
          · rw [hd] at ha
            simp at ha
        have := digitsVal_isSome (c :: rest)
        rw [hnone] at this
        simp only [Option.isSome_none, Bool.false_eq, Bool.and_eq_false_iff] at this
        rw [he]
        rcases this with h1 | h1
        · simp at h1
        · simp [h1]
      · rw [ha] at h
        split at h
        · simp_all
        · split at h <;> simp_all
  · exact Or.inl h4

/-- Reduction of `FromString` once the parse result is known. -/
theorem fromString_of_parse_ok {s : String} {y o : Int}
    (hp : parseIdentifier s = .ok (y, o)) :
    FromString s =
      if (Year ((FromDate (goDate (y - 1) 12 31) + uint16OfInt o) % 65536) : Int) ≠ y
      then .error "illegal AIRAC id"
      else .ok ((FromDate (goDate (y - 1) 12 31) + uint16OfInt o) % 65536) := by
  simp only [FromString, hp]

/-- C6: `FromString` fails exactly when, after trimming, the input does
not have byte length 4, or starts with a sign, or is not all decimal
digits, or parses to a year/ordinal pair whose reconstructed cycle does
not lie in the resolved year; it succeeds on every other input. -/
theorem c6_fromString_error_characterisation :
    ∀ s : String,
      (∃ e, FromString s = .error e) ↔
        (utf8Len (trimSpace s.data) ≠ 4 ∨
          (trimSpace s.data).headD ' ' = '+' ∨
          (trimSpace s.data).headD ' ' = '-' ∨
          ¬ (trimSpace s.data).all isDigitChar = true ∨
          (∃ y o : Int, parseIdentifier s = .ok (y, o) ∧
            (Year ((FromDate (goDate (y - 1) 12 31) + uint16OfInt o) % 65536) : Int)
              ≠ y)) := by
  intro s
  rcases hp : parseIdentifier s with e | yo
  · refine iff_of_true ⟨e, by simp only [FromString, hp]⟩ ?_
    rcases parse_error_shape hp with h | h | h | h
    · exact Or.inl h
    · exact Or.inr (Or.inl h)
    · exact Or.inr (Or.inr (Or.inl h))
    · exact Or.inr (Or.inr (Or.inr (Or.inl h)))
  · obtain ⟨y, o⟩ := yo
    have hf := fromString_of_parse_ok hp
    by_cases hY :
        (Year ((FromDate (goDate (y - 1) 12 31) + uint16OfInt o) % 65536) : Int) = y
    · rw [if_neg (by simpa using hY)] at hf
      refine iff_of_false ?_ ?_
      · rintro ⟨e, he⟩
        rw [hf] at he
        exact Except.noConfusion he
      · obtain ⟨hA, hB, hC, hD⟩ := parse_ok_shape hp
        rintro (h | h | h | h | ⟨y1, o1, hp1, hne⟩)
        · exact h hA
        · exact hB h
        · exact hC h
        · exact h hD
        · obtain ⟨hy1, ho1⟩ : y = y1 ∧ o = o1 := by
            have h2 := Except.ok.inj hp1
            exact ⟨congrArg Prod.fst h2, congrArg Prod.snd h2⟩
          rw [← hy1, ← ho1] at hne
          exact hne hY
    · rw [if_pos (by simpa using hY)] at hf
      exact iff_of_true ⟨_, hf⟩
        (Or.inr (Or.inr (Or.inr (Or.inr ⟨y, o, rfl, hY⟩))))

/-! ### C3 -/

set_option maxRecDepth 20000 in
set_option maxHeartbeats 8000000 in
theorem c3_chunk0 : ∀ i < 512,
    1964 ≤ Year i ∧ Year i ≤ 2063 → FromString (ShortString i) = .ok i := by
  decide

set_option maxRecDepth 20000 in
set_option maxHeartbeats 8000000 in
theorem c3_chunk1 : ∀ i < 512,
    1964 ≤ Year (i + 512) ∧ Year (i + 512) ≤ 2063 →
      FromString (ShortString (i + 512)) = .ok (i + 512) := by
  decide

set_option maxRecDepth 20000 in
set_option maxHeartbeats 8000000 in
theorem c3_chunk2 : ∀ i < 512,
    1964 ≤ Year (i + 1024) ∧ Year (i + 1024) ≤ 2063 →
      FromString (ShortString (i + 1024)) = .ok (i + 1024) := by
  decide

set_option maxRecDepth 20000 in
set_option maxHeartbeats 8000000 in
theorem c3_chunk3 : ∀ i < 512,
    1964 ≤ Year (i + 1536) ∧ Year (i + 1536) ≤ 2063 →
      FromString (ShortString (i + 1536)) = .ok (i + 1536) := by
  decide

set_option maxRecDepth 20000 in
set_option maxHeartbeats 8000000 in
theorem c3_chunk4 : ∀ i < 512,
    1964 ≤ Year (i + 2048) ∧ Year (i + 2048) ≤ 2063 →
      FromString (ShortString (i + 2048)) = .ok (i + 2048) := by
  decide

set_option maxRecDepth 20000 in
set_option maxHeartbeats 8000000 in
theorem c3_chunk5 : ∀ i < 512,
    1964 ≤ Year (i + 2560) ∧ Year (i + 2560) ≤ 2063 →
      FromString (ShortString (i + 2560)) = .ok (i + 2560) := by
  decide

set_option maxRecDepth 20000 in
set_option maxHeartbeats 8000000 in
theorem c3_chunk6 : ∀ i < 512,
    1964 ≤ Year (i + 3072) ∧ Year (i + 3072) ≤ 2063 →
      FromString (ShortString (i + 3072)) = .ok (i + 3072) := by
  decide

set_option maxRecDepth 20000 in
set_option maxHeartbeats 8000000 in
theorem c3_chunk7 : ∀ i < 229,
    1964 ≤ Year (i + 3584) ∧ Year (i + 3584) ≤ 2063 →
      FromString (ShortString (i + 3584)) = .ok (i + 3584) := by
  decide

/-- C3 counterexample: cycle 8448 has `Year` 1964 (its wrapped effective
instant lands in 1964), yet parsing its short string "6402" yields cycle
823, not 8448. -/
theorem c3_counterexample :
    1964 ≤ Year 8448 ∧ Year 8448 ≤ 2063 ∧
      FromString (ShortString 8448) = .ok 823 ∧ (823 : Nat) ≠ 8448 :=
  ⟨by decide, by decide, by decide, by decide⟩

/-- C3 amended: for every cycle `c ≤ 3812` (inside the overflow-free
range) whose year lies in [1964, 2063], parsing the short string returns
the same cycle. -/
theorem c3_shortString_roundtrip :
    ∀ c : Nat, c ≤ 3812 → 1964 ≤ Year c → Year c ≤ 2063 →
      FromString (ShortString c) = .ok c := by
  intro c h3812 h1 h2
  by_cases hc0 : c < 512
  · exact c3_chunk0 c hc0 ⟨h1, h2⟩
  · by_cases hc1 : c < 1024
    · have e : c - 512 + 512 = c := by omega
      have h := c3_chunk1 (c - 512) (by omega)
      rw [e] at h
      exact h ⟨h1, h2⟩
    · by_cases hc2 : c < 1536
      · have e : c - 1024 + 1024 = c := by omega
        have h := c3_chunk2 (c - 1024) (by omega)
        rw [e] at h
        exact h ⟨h1, h2⟩
      · by_cases hc3 : c < 2048
        · have e : c - 1536 + 1536 = c := by omega
          have h := c3_chunk3 (c - 1536) (by omega)
          rw [e] at h
          exact h ⟨h1, h2⟩
        · by_cases hc4 : c < 2560
          · have e : c - 2048 + 2048 = c := by omega
            have h := c3_chunk4 (c - 2048) (by omega)
            rw [e] at h
            exact h ⟨h1, h2⟩
          · by_cases hc5 : c < 3072
            · have e : c - 2560 + 2560 = c := by omega
              have h := c3_chunk5 (c - 2560) (by omega)
              rw [e] at h
              exact h ⟨h1, h2⟩
            · by_cases hc6 : c < 3584
              · have e : c - 3072 + 3072 = c := by omega
                have h := c3_chunk6 (c - 3072) (by omega)
                rw [e] at h
                exact h ⟨h1, h2⟩
              · have e : c - 3584 + 3584 = c := by omega
                have h := c3_chunk7 (c - 3584) (by omega)
                rw [e] at h
                exact h ⟨h1, h2⟩

/-- C3 witness: the amended round trip at cycle 1566 (year 2021). -/
theorem c3_shortString_roundtrip_witness :
    1566 ≤ 3812 ∧ 1964 ≤ Year 1566 ∧ Year 1566 ≤ 2063 ∧
      FromString (ShortString 1566) = .ok 1566 :=
  ⟨by decide, by decide, by decide,
    c3_shortString_roundtrip 1566 (by decide) (by decide) (by decide)⟩

end Airac
